import Mathlib

/-!
Verification development for the `safety_monitor_kph` vehicle applications.

The Python sources are shallowly embedded as pure Lean functions:

* `_tick` embeds the debounce primitive `_tick` of `safety_vapp.py`
  (identical to `SafetyMonitor._update` in `safety/monitor.py` up to the
  source of the threshold).
* The `AutoLock` section embeds the state machine of `autolock_vapp.py`
  (`AutoLockApp._on_speed_changed` and `AutoLockApp.on_door_status`).
* The `SafetyApp` section embeds the evaluation core of `safety_vapp.py`
  (`SafetyApp._evaluate_and_publish`, the MQTT input handlers and
  `_parse_bool`).
* The `ChildMode` section embeds `childlock_vapp.py`
  (`ChildModeController`) and `childlock_vapp_main.py`
  (`ChildLockController.handle_unlock_request`).

Python floats are modelled as rationals (all comparisons in the code are
order comparisons on small decimal constants), Python `None` as `Option`,
and the fire-and-forget `publish_event` calls as the list of events
returned by each handler.  A JSON payload such as
`json.dumps({"command": "lock"})` is modelled structurally as a record
holding its fields.
-/

/-- Debounced counter state, from the dataclass `_DebouncedState` of
`safety_vapp.py` (`active: bool`, `up: int`, `down: int`). -/
structure DebouncedState where
  active : Bool
  up : Nat
  down : Nat
deriving DecidableEq, Repr

/-- Debounce transitions, the strings `"activated"` / `"cleared"` returned
by `_tick`. -/
inductive Transition
  | activated
  | cleared
deriving DecidableEq, Repr

/-- Embedding of `_tick(st, condition, debounce_count)` from
`safety_vapp.py`: on a true condition increment `up` and reset `down`;
if the state was inactive and `up` reached `debounce_count`, flip to
active and report `activated`.  Symmetric for a false condition. -/
def _tick (st : DebouncedState) (condition : Bool) (debounce_count : Nat) :
    DebouncedState × Option Transition :=
  if condition then
    let up1 := st.up + 1
    if st.active = false ∧ debounce_count ≤ up1 then
      ({ active := true, up := up1, down := 0 }, some Transition.activated)
    else
      ({ active := st.active, up := up1, down := 0 }, none)
  else
    let down1 := st.down + 1
    if st.active = true ∧ debounce_count ≤ down1 then
      ({ active := false, up := 0, down := down1 }, some Transition.cleared)
    else
      ({ active := st.active, up := 0, down := down1 }, none)

/-! ## AutoLock (`autolock_vapp.py`) -/

/-- Values of `AutoLockApp._locked_state` other than `None`:
the strings `"locked"` and `"unlocked"`. -/
inductive LockState
  | locked
  | unlocked
deriving DecidableEq, Repr

/-- Mutable state of `AutoLockApp`: `enabled`, `_locked_state`
(`Optional[str]`), `_pending_lock`, `_any_door_open`. -/
structure AutoLockState where
  enabled : Bool
  locked_state : Option LockState
  pending_lock : Bool
  any_door_open : Bool
deriving DecidableEq, Repr

/-- A published MQTT event: the topic together with the single
`"command"` field of the JSON payload
(`json.dumps({"command": "lock"})` and the unlock analogue). -/
structure MqttEvent where
  topic : String
  command : String
deriving DecidableEq, Repr

/-- Event published by `AutoLockApp._publish_lock`. -/
def lockEvent : MqttEvent := { topic := "vehicle/lockDoors", command := "lock" }

/-- Event published by `AutoLockApp._publish_unlock`. -/
def unlockEvent : MqttEvent := { topic := "vehicle/unlockDoors", command := "unlock" }

/-- Thresholds `LOCK_ABOVE_KPH` / `UNLOCK_BELOW_KPH` (env-configured,
defaults 5.0 / 3.0). -/
structure AutoLockConfig where
  lock_above : ℚ
  unlock_below : ℚ

/-- Default thresholds `AUTOLOCK_LOCK_ABOVE_KPH = 5.0`,
`AUTOLOCK_UNLOCK_BELOW_KPH = 3.0`. -/
def defaultAutoLockConfig : AutoLockConfig := { lock_above := 5, unlock_below := 3 }

/-- Embedding of `AutoLockApp._on_speed_changed`.  The argument is the
speed sample delivered by the data broker, `none` when the reply carried
no value (the handler returns at once in that case). -/
def _on_speed_changed (cfg : AutoLockConfig) (s : AutoLockState) (speed : Option ℚ) :
    AutoLockState × List MqttEvent :=
  match speed with
  | none => (s, [])
  | some v =>
    if s.enabled = false then (s, [])
    else if cfg.lock_above < v then
      if s.any_door_open then ({ s with pending_lock := true }, [])
      else if s.locked_state ≠ some LockState.locked then
        ({ s with locked_state := some LockState.locked, pending_lock := false },
         [lockEvent])
      else (s, [])
    else if v < cfg.unlock_below then
      if s.locked_state ≠ some LockState.unlocked then
        ({ s with locked_state := some LockState.unlocked, pending_lock := false },
         [unlockEvent])
      else ({ s with pending_lock := false }, [])
    else (s, [])

/-- Embedding of `AutoLockApp.on_door_status`.  `payload` is the parse
result of the JSON payload: `some anyOpen` when `json.loads` succeeds
(`bool(data.get("anyOpen", False))`), `none` when parsing raises and the
handler returns without touching any state.  `speed_now` is the live
`Vehicle.Speed.get()` read, `none` when it fails or carries no value. -/
def on_door_status (cfg : AutoLockConfig) (s : AutoLockState)
    (payload : Option Bool) (speed_now : Option ℚ) :
    AutoLockState × List MqttEvent :=
  match payload with
  | none => (s, [])
  | some any_open =>
    let s1 := { s with any_door_open := any_open }
    let speed_above : Bool :=
      match speed_now with
      | none => false
      | some v => decide (cfg.lock_above < v)
    if any_open && speed_above && !(s1.locked_state == some LockState.locked) then
      ({ s1 with pending_lock := true }, [])
    else if s1.pending_lock && !any_open && speed_above then
      ({ s1 with locked_state := some LockState.locked, pending_lock := false },
       [lockEvent])
    else (s1, [])

/-- One incoming event for `AutoLockApp`: a speed sample or a door
aggregate message (with the live speed read it triggers). -/
inductive ALEvent
  | speed (v : Option ℚ)
  | door (payload : Option Bool) (speed_now : Option ℚ)

/-- Dispatch one incoming event to the matching handler. -/
def alStep (cfg : AutoLockConfig) (s : AutoLockState) : ALEvent → AutoLockState × List MqttEvent
  | ALEvent.speed v => _on_speed_changed cfg s v
  | ALEvent.door p sn => on_door_status cfg s p sn

/-- Process a sequence of incoming events, collecting all published
events in order. -/
def alRun (cfg : AutoLockConfig) (s : AutoLockState) : List ALEvent → AutoLockState × List MqttEvent
  | [] => (s, [])
  | e :: rest =>
    let r1 := alStep cfg s e
    let r2 := alRun cfg r1.1 rest
    (r2.1, r1.2 ++ r2.2)

/-- Process a sequence of speed samples (each present, as in the tests). -/
def runSpeeds (cfg : AutoLockConfig) (s : AutoLockState) (l : List ℚ) :
    AutoLockState × List MqttEvent :=
  alRun cfg s (l.map (fun v => ALEvent.speed (some v)))

/-- Fresh `AutoLockApp` state: `_locked_state = None`,
`_pending_lock = False`, `_any_door_open = False`, `enabled` from
persistence/env. -/
def initAutoLock (enabled : Bool) : AutoLockState :=
  { enabled := enabled, locked_state := none, pending_lock := false, any_door_open := false }

/-! ## SafetyApp (`safety_vapp.py`) -/

/-- Model of Python `str.strip()`: drop leading and trailing whitespace
(computed structurally on the character list so that proofs can evaluate
it). -/
def pyStrip (s : String) : String :=
  String.mk (((s.data.dropWhile Char.isWhitespace).reverse.dropWhile
    Char.isWhitespace).reverse)

/-- Model of Python `str.lower()` for the ASCII payloads used here. -/
def pyLower (s : String) : String :=
  String.mk (s.data.map Char.toLower)

/-- Model of Python `str.upper()` for the ASCII door identifiers used
here. -/
def pyUpper (s : String) : String :=
  String.mk (s.data.map Char.toUpper)

/-- Model of Python `str.split(sep)` for a one-character separator,
structurally recursive so that proofs can evaluate it. -/
def splitOnCharAux (c : Char) : List Char → List Char → List String
  | [], acc => [String.mk acc.reverse]
  | x :: xs, acc =>
    if x = c then String.mk acc.reverse :: splitOnCharAux c xs []
    else splitOnCharAux c xs (x :: acc)

/-- Split a string at every occurrence of the separator character. -/
def splitOnChar (c : Char) (s : String) : List String :=
  splitOnCharAux c s.data []

/-- Partial model of `bool(json.loads(s))` as used by the fallback branch
of `_parse_bool`: it handles the JSON literals `true` / `false` / `null`
and unsigned decimal integer literals (truthiness: some non-zero digit),
and returns `none` (a raised exception) on everything else.  Only inputs
of these shapes occur in the theorems below; keyword payloads such as
`"true"` or `"0"` never reach this fallback. -/
def jsonBoolLit (s : String) : Option Bool :=
  if s = "true" then some true
  else if s = "false" then some false
  else if s = "null" then some false
  else if !s.data.isEmpty && s.data.all Char.isDigit then
    some (s.data.any (fun c => c ≠ '0'))
  else none

/-- Embedding of `_parse_bool` from `safety_vapp.py`: strip + lowercase,
match the truthy/falsy keyword lists, otherwise fall back to
`bool(json.loads(s))`, returning `False` when that raises.  The fallback
is abstracted as the `jsonBool` argument (instantiated with
`jsonBoolLit` at concrete inputs). -/
def _parse_bool (jsonBool : String → Option Bool) (s : String) : Bool :=
  let t := pyLower (pyStrip s)
  if t = "true" ∨ t = "1" ∨ t = "on" ∨ t = "yes" then true
  else if t = "false" ∨ t = "0" ∨ t = "off" ∨ t = "no" then false
  else (jsonBool t).getD false

/-- Events published by `SafetyApp`: the speed echo on `ext/safety/speed`
and the two alert payloads, modelled structurally by their JSON fields.
The `speedTenths` field holds ten times the published one-decimal
`speedKph` value (`round(speed, 1)`), kept as an integer so that it
evaluates inside the kernel. -/
inductive SafetyEvent
  | speed (speedTenths : ℤ)
  | seatbelt (moving : Bool) (speedTenths : ℤ) (anyUnfastened : Bool)
      (unfastened : List String) (thresholdKph : ℚ) (state : String)
  | door (moving : Bool) (speedTenths : ℤ) (anyOpen : Bool)
      (openDoors : List String) (thresholdKph : ℚ) (state : String)
deriving DecidableEq, Repr

/-- Whether a published event went to the door alert topic. -/
def SafetyEvent.isDoor : SafetyEvent → Bool
  | SafetyEvent.door _ _ _ _ _ _ => true
  | _ => false

/-- Whether a published event went to the seatbelt alert topic. -/
def SafetyEvent.isSeatbelt : SafetyEvent → Bool
  | SafetyEvent.seatbelt _ _ _ _ _ _ => true
  | _ => false

/-- Model of Python's `round(q, 1)` scaled by ten: the integer nearest
to `10 * q`, ties to even (computed on the numerator/denominator so it
evaluates inside the kernel). -/
def roundTenths (q : ℚ) : ℤ :=
  let n := q.num * 10
  let d := (q.den : ℤ)
  let f := Int.fdiv n d
  let r2 := 2 * (n - f * d)
  if r2 < d then f
  else if d < r2 then f + 1
  else if f % 2 = 0 then f else f + 1

/-- Mutable state of `SafetyApp`: configuration, the current speed
(`None` when the last data-broker reply carried no value), the two
insertion-ordered boolean maps, the two debounced gates and the
last-published aggregates. -/
structure SafetyAppState where
  threshold_kph : ℚ
  debounce_count : Nat
  speed_kph : Option ℚ
  doors_open : List (String × Bool)
  belts_fastened : List (String × Bool)
  sb_state : DebouncedState
  door_state : DebouncedState
  last_open_doors : List String
  last_unfastened : List String
  last_moving : Bool
deriving DecidableEq, Repr

/-- Update an existing key of an insertion-ordered dict in place
(Python `d[k] = v` on a key present since construction). -/
def setKey (m : List (String × Bool)) (k : String) (v : Bool) : List (String × Bool) :=
  m.map (fun p => if p.1 = k then (k, v) else p)

/-- Python set equality of the element lists
(`set(a) != set-valued b` comparisons in `_evaluate_and_publish`). -/
def sameSet (a b : List String) : Bool :=
  a.all (fun x => b.contains x) && b.all (fun x => a.contains x)

/-- Fresh `SafetyApp` state: speed 0.0, four closed doors, two fastened
belts, inactive gates, empty last-published aggregates. -/
def initSafetyApp (threshold : ℚ) (debounce : Nat) : SafetyAppState :=
  { threshold_kph := threshold
    debounce_count := debounce
    speed_kph := some 0
    doors_open := [("frontLeft", false), ("frontRight", false),
                   ("rearLeft", false), ("rearRight", false)]
    belts_fastened := [("row1_pos1", true), ("row1_pos2", true)]
    sb_state := { active := false, up := 0, down := 0 }
    door_state := { active := false, up := 0, down := 0 }
    last_open_doors := []
    last_unfastened := []
    last_moving := false }

/-- Core of `SafetyApp._evaluate_and_publish` for a present speed value
`q = speed_kph`: recompute `moving` and the aggregate lists, tick both
gates, and publish each alert payload exactly when the gate fired a
transition or is active with changed content, updating the
last-published aggregates accordingly. -/
def evalCore (st : SafetyAppState) (q : ℚ) : SafetyAppState × List SafetyEvent :=
  let moving : Bool := decide (st.threshold_kph < q)
  let unfastened := (st.belts_fastened.filter (fun p => !p.2)).map Prod.fst
  let open_doors := (st.doors_open.filter (fun p => p.2)).map Prod.fst
  let sbr := _tick st.sb_state (moving && !unfastened.isEmpty) st.debounce_count
  let drr := _tick st.door_state (moving && !open_doors.isEmpty) st.debounce_count
  let sb_should : Bool :=
    sbr.2.isSome ||
      (sbr.1.active && (!sameSet unfastened st.last_unfastened || moving != st.last_moving))
  let dr_should : Bool :=
    drr.2.isSome ||
      (drr.1.active && (!sameSet open_doors st.last_open_doors || moving != st.last_moving))
  let sbEvents : List SafetyEvent :=
    if sb_should then
      [SafetyEvent.seatbelt moving (roundTenths q) (!unfastened.isEmpty) unfastened
        st.threshold_kph (if sbr.1.active then "active" else "cleared")]
    else []
  let drEvents : List SafetyEvent :=
    if dr_should then
      [SafetyEvent.door moving (roundTenths q) (!open_doors.isEmpty) open_doors
        st.threshold_kph (if drr.1.active then "active" else "cleared")]
    else []
  ({ st with
      sb_state := sbr.1
      door_state := drr.1
      last_unfastened := if sb_should then unfastened else st.last_unfastened
      last_open_doors := if dr_should then open_doors else st.last_open_doors
      last_moving := moving },
   sbEvents ++ drEvents)

/-- Shape of `SafetyApp._evaluate_and_publish` as called by the
handlers: when `speed_kph` is `None`, the very first line
(`self.speed_kph > self.threshold_kph`) raises `TypeError` before any
mutation or publish, modelled as `none`. -/
def _evaluate_and_publish (st : SafetyAppState) : Option (SafetyAppState × List SafetyEvent) :=
  match st.speed_kph with
  | none => none
  | some q => some (evalCore st q)

/-- Result of one `SafetyApp` handler call: the state it leaves behind,
the events it published, and whether it ended in a raised exception. -/
structure HandlerResult where
  state : SafetyAppState
  events : List SafetyEvent
  raised : Bool
deriving DecidableEq, Repr

/-- Embedding of `SafetyApp.on_speed_changed`: record the (possibly
absent) value, publish the speed echo with `float(speed or 0.0)` rounded
to one decimal, then run the evaluation (which raises when the recorded
speed is `None`). -/
def on_speed_changed (st : SafetyAppState) (v : Option ℚ) : HandlerResult :=
  let st1 := { st with speed_kph := v }
  let echo := SafetyEvent.speed (roundTenths (v.getD 0))
  match _evaluate_and_publish st1 with
  | none => { state := st1, events := [echo], raised := true }
  | some r => { state := r.1, events := echo :: r.2, raised := false }

/-- Common body of the six MQTT input handlers of `SafetyApp`: write
`_parse_bool(payload)` into the given map entry, then evaluate. -/
def onBoolInput (jsonBool : String → Option Bool) (isDoorMap : Bool) (key : String)
    (st : SafetyAppState) (payload : String) : HandlerResult :=
  let b := _parse_bool jsonBool payload
  let st1 :=
    if isDoorMap then { st with doors_open := setKey st.doors_open key b }
    else { st with belts_fastened := setKey st.belts_fastened key b }
  match _evaluate_and_publish st1 with
  | none => { state := st1, events := [], raised := true }
  | some r => { state := r.1, events := r.2, raised := false }

/-- Handler for `safety/input/door/frontLeft`. -/
def _on_door_front_left (jsonBool : String → Option Bool)
    (st : SafetyAppState) (payload : String) : HandlerResult :=
  onBoolInput jsonBool true "frontLeft" st payload

/-- Handler for `safety/input/door/frontRight`. -/
def _on_door_front_right (jsonBool : String → Option Bool)
    (st : SafetyAppState) (payload : String) : HandlerResult :=
  onBoolInput jsonBool true "frontRight" st payload

/-- Handler for `safety/input/seatbelt/row1_pos1`. -/
def _on_belt_row1_pos1 (jsonBool : String → Option Bool)
    (st : SafetyAppState) (payload : String) : HandlerResult :=
  onBoolInput jsonBool false "row1_pos1" st payload

/-! ## ChildMode (`childlock_vapp.py`, `childlock_vapp_main.py`) -/

/-- Enum `DoorPosition` of `childlock_vapp.py`. -/
inductive DoorPosition
  | front_left
  | front_right
  | rear_left
  | rear_right
deriving DecidableEq, Repr

/-- Python `Enum.name` of each `DoorPosition` member. -/
def DoorPosition.enumName : DoorPosition → String
  | DoorPosition.front_left => "FRONT_LEFT"
  | DoorPosition.front_right => "FRONT_RIGHT"
  | DoorPosition.rear_left => "REAR_LEFT"
  | DoorPosition.rear_right => "REAR_RIGHT"

/-- Enum `UnlockSource` of `childlock_vapp.py`. -/
inductive UnlockSource
  | inside
  | outside
  | remote
deriving DecidableEq, Repr

/-- Dataclass `ChildModeConfig` with its default field values. -/
structure ChildModeConfig where
  normal_lock_threshold_kph : ℚ := 10
  child_lock_threshold_kph : ℚ := 5
  block_rear_inside_unlock : Bool := true
deriving DecidableEq, Repr

/-- The default `ChildModeConfig()`. -/
def defaultChildModeConfig : ChildModeConfig := {}

/-- Event published through `publish_child_mode_event`, modelled by its
`"event"` name and `"door"` field. -/
structure ChildEvent where
  event : String
  door : String
deriving DecidableEq, Repr

/-- Embedding of `ChildModeController.get_lock_threshold_kph`: the child
threshold when enabled, otherwise `base_threshold_kph or
normal_lock_threshold_kph` (a Python `or`, so a falsy 0.0 base falls
back to the configured normal threshold). -/
def get_lock_threshold_kph (cfg : ChildModeConfig) (enabled : Bool) (base : ℚ) : ℚ :=
  if enabled then cfg.child_lock_threshold_kph
  else if base = 0 then cfg.normal_lock_threshold_kph
  else base

/-- Embedding of `ChildModeController.is_unlock_allowed`, returning the
decision together with the events it publishes
(`_on_blocked_rear_inside_unlock` emits one event carrying
`door.name`). -/
def is_unlock_allowed (cfg : ChildModeConfig) (enabled : Bool)
    (door : DoorPosition) (source : UnlockSource) : Bool × List ChildEvent :=
  if enabled = false then (true, [])
  else if cfg.block_rear_inside_unlock && source == UnlockSource.inside &&
      (door == DoorPosition.rear_left || door == DoorPosition.rear_right) then
    (false, [{ event := "child_mode_blocked_rear_inside_unlock", door := door.enumName }])
  else (true, [])

/-- Embedding of `ChildLockController.handle_unlock_request` from
`childlock_vapp_main.py`: split the topic, take the door id from segment
2, lowercase the payload as the source; block (and emit one event naming
the upper-cased door id) exactly for rear doors requested from inside
while child mode is on.  `none` models the early return on a topic with
fewer than four segments. -/
def handle_unlock_request (child_mode_enabled : Bool) (topic : String) (payload : String) :
    Option (Bool × List ChildEvent) :=
  let parts := splitOnChar '/' topic
  if parts.length < 4 then none
  else
    let door_id := parts.getD 2 ""
    let source := pyLower (pyStrip payload)
    if child_mode_enabled && source == "inside" &&
        (door_id == "rearLeft" || door_id == "rearRight") then
      some (false,
        [{ event := "child_mode_blocked_rear_inside_unlock", door := pyUpper door_id }])
    else some (true, [])

/-! ## Concrete states and traces used in the theorems -/

/-- A `SafetyApp` state with both front doors open, the door alert
active, the last published aggregates matching the current ones and the
vehicle moving at 10 km/h. -/
def stBothFrontOpen : SafetyAppState :=
  { threshold_kph := 5
    debounce_count := 1
    speed_kph := some 10
    doors_open := [("frontLeft", true), ("frontRight", true),
                   ("rearLeft", false), ("rearRight", false)]
    belts_fastened := [("row1_pos1", true), ("row1_pos2", true)]
    sb_state := { active := false, up := 0, down := 2 }
    door_state := { active := true, up := 2, down := 0 }
    last_open_doors := ["frontLeft", "frontRight"]
    last_unfastened := []
    last_moving := true }

/-- Republish scenario, step 0: fresh app with threshold 5 km/h and
debounce count 1. -/
def c4Start : SafetyAppState := initSafetyApp 5 1

/-- Republish scenario, step 1: a 10 km/h speed sample arrives. -/
def c4AfterSpeed : HandlerResult := on_speed_changed c4Start (some 10)

/-- Republish scenario, step 2: the front-left door opens (activates the
door alert). -/
def c4AfterFL : HandlerResult := _on_door_front_left jsonBoolLit c4AfterSpeed.state "true"

/-- Republish scenario, step 3: the front-right door also opens while
the alert is active. -/
def c4AfterFR : HandlerResult := _on_door_front_right jsonBoolLit c4AfterFL.state "true"

/-- Republish scenario, step 4: the identical front-right message is
delivered again. -/
def c4Repeat : HandlerResult := _on_door_front_right jsonBoolLit c4AfterFR.state "true"

/-! ## Theorems -/

/-- C10: for every base threshold, the effective lock threshold is the
fixed child threshold when child mode is enabled, and otherwise the base
threshold unless the base is zero (falsy), in which case it is the
configured normal threshold; in particular, with the default
configuration the effective threshold is 5 when enabled, 12 for base 12
when disabled, and 10 for base 0 when disabled. -/
theorem childmode_effective_threshold (cfg : ChildModeConfig) (base : ℚ) :
    get_lock_threshold_kph cfg true base = cfg.child_lock_threshold_kph ∧
    get_lock_threshold_kph cfg false base =
      (if base = 0 then cfg.normal_lock_threshold_kph else base) ∧
    get_lock_threshold_kph defaultChildModeConfig true 12 = 5 ∧
    get_lock_threshold_kph defaultChildModeConfig false 12 = 12 ∧
    get_lock_threshold_kph defaultChildModeConfig false 0 = 10 := by
  refine ⟨rfl, rfl, by decide, by decide, by decide⟩

/-- C9: under the default configuration, `is_unlock_allowed` denies a
request exactly when child mode is enabled, the source is Inside and the
door is a rear door; each denial emits exactly one
`child_mode_blocked_rear_inside_unlock` event naming the door, and an
allowed request emits none.  The MQTT-level
`handle_unlock_request` blocks the inside rear-left request with one
event naming `"REARLEFT"` when child mode is on, and allows the same
request with no event when it is off. -/
theorem childmode_unlock_veto :
    (∀ (enabled : Bool) (door : DoorPosition) (source : UnlockSource),
      ((is_unlock_allowed defaultChildModeConfig enabled door source).1 = false ↔
        enabled = true ∧ source = UnlockSource.inside ∧
          (door = DoorPosition.rear_left ∨ door = DoorPosition.rear_right)) ∧
      (is_unlock_allowed defaultChildModeConfig enabled door source).2 =
        (if (is_unlock_allowed defaultChildModeConfig enabled door source).1 then []
         else [{ event := "child_mode_blocked_rear_inside_unlock",
                 door := door.enumName }])) ∧
    handle_unlock_request true "ext/doors/rearLeft/unlock" "inside" =
      some (false,
        [{ event := "child_mode_blocked_rear_inside_unlock", door := "REARLEFT" }]) ∧
    handle_unlock_request false "ext/doors/rearLeft/unlock" "inside" = some (true, []) := by
  refine ⟨?_, by decide, by decide⟩
  intro enabled door source
  cases enabled <;> cases door <;> cases source <;>
    simp [is_unlock_allowed, DoorPosition.enumName, defaultChildModeConfig]

/-- C7: for every state, condition and debounce count at least 1, a true
tick increments `up` and resets `down`, and returns `Activated` exactly
when the incremented `up` reaches the count while the state was
inactive; symmetrically a false tick for `down` / `Cleared`; no
transition is returned otherwise (in particular, a tick that agrees with
an already-matching active flag never fires, so consecutive true ticks
while active never fire twice, and a transitionless tick leaves the
active flag unchanged); and with count 1 the gate degenerates to plain
edge-triggering. -/
theorem debounce_tick_spec (st : DebouncedState) (c : Bool) (n : Nat) (hn : 1 ≤ n) :
    (c = true →
      (_tick st c n).1.up = st.up + 1 ∧ (_tick st c n).1.down = 0 ∧
      ((_tick st c n).2 = some Transition.activated ↔
        st.active = false ∧ n ≤ st.up + 1) ∧
      (_tick st c n).2 ≠ some Transition.cleared ∧
      (st.active = true → (_tick st c n).2 = none ∧ (_tick st c n).1.active = true)) ∧
    (c = false →
      (_tick st c n).1.down = st.down + 1 ∧ (_tick st c n).1.up = 0 ∧
      ((_tick st c n).2 = some Transition.cleared ↔
        st.active = true ∧ n ≤ st.down + 1) ∧
      (_tick st c n).2 ≠ some Transition.activated ∧
      (st.active = false → (_tick st c n).2 = none ∧ (_tick st c n).1.active = false)) ∧
    ((_tick st c n).2 = none → (_tick st c n).1.active = st.active) ∧
    (n = 1 → st.active = false → c = true → (_tick st c n).2 = some Transition.activated) ∧
    (n = 1 → st.active = true → c = false → (_tick st c n).2 = some Transition.cleared) := by
  cases c <;> cases hact : st.active <;>
    simp [_tick, hact] <;>
    by_cases hcnt : n ≤ st.up + 1 <;> by_cases hcnt2 : n ≤ st.down + 1 <;>
      simp [hcnt, hcnt2] <;> omega

/-- Witness for `debounce_tick_spec`: with debounce count 1, a single
true tick from the inactive zero state fires `Activated`. -/
theorem debounce_tick_spec_witness :
    1 ≤ 1 ∧
    (_tick { active := false, up := 0, down := 0 } true 1).2 = some Transition.activated := by
  have h := debounce_tick_spec { active := false, up := 0, down := 0 } true 1 (by decide)
  exact ⟨by decide, h.2.2.2.1 rfl rfl rfl⟩

/-- C1 counterexample: with the controller disabled, door-aggregate
events are not ignored — from a disabled fresh state, a doors-open
message observed at 6 km/h mutates the state (it sets `anyDoorOpen` and
`pendingLock`), and a following doors-closed message even publishes a
Lock command while still disabled. -/
theorem autolock_disabled_door_event_not_ignored_cex :
    (alStep defaultAutoLockConfig (initAutoLock false)
        (ALEvent.door (some true) (some 6))).1 ≠ initAutoLock false ∧
    alRun defaultAutoLockConfig (initAutoLock false)
        [ALEvent.door (some true) (some 6), ALEvent.door (some false) (some 6)] =
      ({ enabled := false, locked_state := some LockState.locked,
         pending_lock := false, any_door_open := false }, [lockEvent]) := by
  decide

/-- C1 (amended): while `enabled` is false, every speed event is ignored
entirely — no controller field changes and no command is published.
Door-aggregate events, however, are processed regardless of `enabled`:
they update `anyDoorOpen`, may set `pendingLock`, and may publish a
deferred Lock (see the counterexample). -/
theorem autolock_disabled_speed_events_ignored
    (cfg : AutoLockConfig) (s : AutoLockState) (v : Option ℚ)
    (h : s.enabled = false) :
    _on_speed_changed cfg s v = (s, []) := by
  cases v with
  | none => rfl
  | some u => simp [_on_speed_changed, h]

/-- Witness for `autolock_disabled_speed_events_ignored`: a disabled
fresh state ignores a 10 km/h sample. -/
theorem autolock_disabled_speed_events_ignored_witness :
    (initAutoLock false).enabled = false ∧
    _on_speed_changed defaultAutoLockConfig (initAutoLock false) (some 10) =
      (initAutoLock false, []) :=
  ⟨rfl, autolock_disabled_speed_events_ignored defaultAutoLockConfig
    (initAutoLock false) (some 10) rfl⟩

/-- C2 counterexample: the claimed state invariant fails — starting from
the fresh enabled state, a doors-open message observed at 6 km/h
followed by a doors-closed message observed at 4 km/h (the dead band)
reaches a state with `pendingLock` true while `anyDoorOpen` is false. -/
theorem autolock_pending_invariant_cex :
    (alRun defaultAutoLockConfig (initAutoLock true)
        [ALEvent.door (some true) (some 6), ALEvent.door (some false) (some 4)]).1 =
      { enabled := true, locked_state := none, pending_lock := true,
        any_door_open := false } := by
  decide

/-- C2 (amended): `pendingLock` is set (false to true) only by a step
whose observed speed exceeds the lock threshold and which leaves
`anyDoorOpen` true; every step that publishes a Lock command leaves
`pendingLock` false; and an enabled speed sample below the unlock
threshold clears `pendingLock` in that same step.  The claimed
*persistent* invariant — `pendingLock` true only while `anyDoorOpen`
holds, the last speed exceeds the threshold and the state is not Locked
— does not hold across later events (see the counterexample). -/
theorem autolock_pending_edge_and_clear
    (cfg : AutoLockConfig) (s : AutoLockState) (e : ALEvent)
    (hcfg : cfg.unlock_below ≤ cfg.lock_above) :
    (s.pending_lock = false → (alStep cfg s e).1.pending_lock = true →
      (alStep cfg s e).1.any_door_open = true ∧
      ∃ u : ℚ, cfg.lock_above < u ∧
        (e = ALEvent.speed (some u) ∨ ∃ p, e = ALEvent.door p (some u))) ∧
    (lockEvent ∈ (alStep cfg s e).2 → (alStep cfg s e).1.pending_lock = false) ∧
    (∀ u : ℚ, u < cfg.unlock_below → s.enabled = true →
      (alStep cfg s (ALEvent.speed (some u))).1.pending_lock = false) := by
  refine ⟨?_, ?_, ?_⟩
  · intro hp hp'
    cases e with
    | speed v =>
      cases v with
      | none => simp [alStep, _on_speed_changed, hp] at hp'
      | some u =>
        by_cases hen : s.enabled = false
        · simp [alStep, _on_speed_changed, hen, hp] at hp'
        · by_cases hla : cfg.lock_above < u
          · by_cases hdo : s.any_door_open
            · exact ⟨by simp [alStep, _on_speed_changed, hen, hla, hdo],
                u, hla, Or.inl rfl⟩
            · by_cases hls : s.locked_state ≠ some LockState.locked
              · simp [alStep, _on_speed_changed, hen, hla, hdo, hls] at hp'
              · simp [alStep, _on_speed_changed, hen, hla, hdo, hls, hp] at hp'
          · by_cases hub : u < cfg.unlock_below
            · by_cases hls : s.locked_state ≠ some LockState.unlocked
              · simp [alStep, _on_speed_changed, hen, hla, hub, hls] at hp'
              · simp [alStep, _on_speed_changed, hen, hla, hub, hls] at hp'
            · simp [alStep, _on_speed_changed, hen, hla, hub, hp] at hp'
    | door p sn =>
      cases p with
      | none => simp [alStep, on_door_status, hp] at hp'
      | some any_open =>
        cases sn with
        | none => cases any_open <;> simp [alStep, on_door_status, hp] at hp'
        | some u =>
          by_cases hlt : cfg.lock_above < u
          · cases any_open with
            | false => simp [alStep, on_door_status, hp, hlt] at hp'
            | true =>
              by_cases hls : s.locked_state = some LockState.locked
              · simp [alStep, on_door_status, hp, hlt, hls] at hp'
              · refine ⟨?_, u, hlt, Or.inr ⟨some true, rfl⟩⟩
                simp [alStep, on_door_status, hlt, hls]
          · cases any_open <;> simp [alStep, on_door_status, hp, hlt] at hp'
  · intro hmem
    cases e with
    | speed v =>
      cases v with
      | none => simp [alStep, _on_speed_changed] at hmem
      | some u =>
        by_cases hen : s.enabled = false
        · simp [alStep, _on_speed_changed, hen] at hmem
        · by_cases hla : cfg.lock_above < u
          · by_cases hdo : s.any_door_open
            · simp [alStep, _on_speed_changed, hen, hla, hdo] at hmem
            · by_cases hls : s.locked_state ≠ some LockState.locked
              · simp [alStep, _on_speed_changed, hen, hla, hdo, hls]
              · simp [alStep, _on_speed_changed, hen, hla, hdo, hls] at hmem
          · by_cases hub : u < cfg.unlock_below
            · by_cases hls : s.locked_state ≠ some LockState.unlocked
              · exfalso
                have : lockEvent = unlockEvent := by
                  simpa [alStep, _on_speed_changed, hen, hla, hub, hls] using hmem
                exact absurd this (by decide)
              · simp [alStep, _on_speed_changed, hen, hla, hub, hls] at hmem
            · simp [alStep, _on_speed_changed, hen, hla, hub] at hmem
    | door p sn =>
      cases p with
      | none => simp [alStep, on_door_status] at hmem
      | some any_open =>
        cases sn with
        | none => cases any_open <;> simp [alStep, on_door_status] at hmem
        | some u =>
          by_cases hlt : cfg.lock_above < u
          · cases any_open with
            | false =>
              by_cases hpd : s.pending_lock = true
              · simp [alStep, on_door_status, hlt, hpd]
              · simp [alStep, on_door_status, hlt, hpd] at hmem
            | true =>
              by_cases hls : s.locked_state = some LockState.locked
              · simp [alStep, on_door_status, hlt, hls] at hmem
              · simp [alStep, on_door_status, hlt, hls] at hmem
          · cases any_open <;> simp [alStep, on_door_status, hlt] at hmem
  · intro u hu hen
    have hnl : ¬ (cfg.lock_above < u) := fun hlt =>
      absurd (lt_of_lt_of_le hu hcfg) (not_lt_of_gt hlt)
    by_cases hls : s.locked_state ≠ some LockState.unlocked
    · simp [alStep, _on_speed_changed, hen, hnl, hu, hls]
    · simp [alStep, _on_speed_changed, hen, hnl, hu, hls]

/-- Witness for `autolock_pending_edge_and_clear`: with the default
thresholds, a 1 km/h sample on the fresh enabled state leaves
`pendingLock` false. -/
theorem autolock_pending_edge_and_clear_witness :
    defaultAutoLockConfig.unlock_below ≤ defaultAutoLockConfig.lock_above ∧
    (alStep defaultAutoLockConfig (initAutoLock true)
      (ALEvent.speed (some 1))).1.pending_lock = false := by
  have h := autolock_pending_edge_and_clear defaultAutoLockConfig (initAutoLock true)
    (ALEvent.speed (some 1)) (by decide)
  exact ⟨by decide, h.2.2 1 (by decide) rfl⟩

/-- C5: from any enabled controller state, a sequence of speed samples
each strictly between the unlock and the lock threshold changes nothing
and publishes no command (hysteresis dead band). -/
theorem autolock_deadband_no_command
    (cfg : AutoLockConfig) (s : AutoLockState) (l : List ℚ)
    (hs : s.enabled = true)
    (hl : ∀ v ∈ l, cfg.unlock_below < v ∧ v < cfg.lock_above) :
    runSpeeds cfg s l = (s, []) := by
  induction l with
  | nil => rfl
  | cons v rest ih =>
    have hv := hl v (List.mem_cons_self v rest)
    have hstep : _on_speed_changed cfg s (some v) = (s, []) := by
      have h1 : ¬ (cfg.lock_above < v) := not_lt_of_gt hv.2
      have h2 : ¬ (v < cfg.unlock_below) := not_lt_of_gt hv.1
      simp [_on_speed_changed, hs, h1, h2]
    have ihr := ih (fun u hu => hl u (List.mem_cons_of_mem v hu))
    simp only [runSpeeds, List.map_cons, alRun, alStep, hstep] at *
    simp [ihr]

/-- Witness for `autolock_deadband_no_command`: a 4 km/h sample (inside
the default 3–5 dead band) on the fresh enabled state is a no-op. -/
theorem autolock_deadband_no_command_witness :
    (initAutoLock true).enabled = true ∧
    runSpeeds defaultAutoLockConfig (initAutoLock true) [4] =
      (initAutoLock true, []) := by
  refine ⟨rfl, autolock_deadband_no_command defaultAutoLockConfig (initAutoLock true) [4] rfl ?_⟩
  intro v hv
  simp only [List.mem_singleton] at hv
  subst hv
  constructor <;> norm_num [defaultAutoLockConfig]

/-- C8: an enabled controller processing a speed sample below the unlock
threshold always ends with `lockedState = Unlocked` and `pendingLock`
cleared, and publishes an Unlock command exactly when `lockedState` was
not already Unlocked — regardless of any prior lock history, including
the initial Unknown state. -/
theorem autolock_unlock_below_threshold
    (cfg : AutoLockConfig) (s : AutoLockState) (v : ℚ)
    (hcfg : cfg.unlock_below ≤ cfg.lock_above)
    (hs : s.enabled = true) (hv : v < cfg.unlock_below) :
    _on_speed_changed cfg s (some v) =
      ({ s with locked_state := some LockState.unlocked, pending_lock := false },
       if s.locked_state = some LockState.unlocked then [] else [unlockEvent]) := by
  have hnl : ¬ (cfg.lock_above < v) := fun hlt =>
    absurd (lt_of_lt_of_le hv hcfg) (not_lt_of_gt hlt)
  by_cases hls : s.locked_state = some LockState.unlocked
  · simp [_on_speed_changed, hs, hnl, hv, hls]
  · simp [_on_speed_changed, hs, hnl, hv, hls]

/-- Witness for `autolock_unlock_below_threshold`: from an enabled state
with a pending lock, an Unknown locked state and an open door, a 1 km/h
sample publishes Unlock and clears the pending latch. -/
theorem autolock_unlock_below_threshold_witness :
    defaultAutoLockConfig.unlock_below ≤ defaultAutoLockConfig.lock_above ∧
    ({ enabled := true, locked_state := none, pending_lock := true,
       any_door_open := true } : AutoLockState).enabled = true ∧
    (1 : ℚ) < defaultAutoLockConfig.unlock_below ∧
    _on_speed_changed defaultAutoLockConfig
        { enabled := true, locked_state := none, pending_lock := true,
          any_door_open := true } (some 1) =
      ({ enabled := true, locked_state := some LockState.unlocked,
         pending_lock := false, any_door_open := true }, [unlockEvent]) := by
  refine ⟨by decide, rfl, by decide, ?_⟩
  have h := autolock_unlock_below_threshold defaultAutoLockConfig
    { enabled := true, locked_state := none, pending_lock := true, any_door_open := true }
    1 (by decide) rfl (by decide)
  simpa using h

/-- Helper: once locked with doors closed and no pending latch, further
samples above the lock threshold are no-ops. -/
theorem runSpeeds_locked_noop
    (cfg : AutoLockConfig) (l : List ℚ)
    (ha : ∀ v ∈ l, cfg.lock_above < v) :
    runSpeeds cfg
        { enabled := true, locked_state := some LockState.locked,
          pending_lock := false, any_door_open := false } l =
      ({ enabled := true, locked_state := some LockState.locked,
         pending_lock := false, any_door_open := false }, []) := by
  induction l with
  | nil => rfl
  | cons v rest ih =>
    have hv := ha v (List.mem_cons_self v rest)
    have hstep : _on_speed_changed cfg
        { enabled := true, locked_state := some LockState.locked,
          pending_lock := false, any_door_open := false } (some v) =
        ({ enabled := true, locked_state := some LockState.locked,
           pending_lock := false, any_door_open := false }, []) := by
      simp [_on_speed_changed, hv]
    have ihr := ih (fun u hu => ha u (List.mem_cons_of_mem v hu))
    simp only [runSpeeds, List.map_cons, alRun, alStep, hstep] at *
    simp [ihr]

/-- Helper: once unlocked with no pending latch, further samples below
the unlock threshold are no-ops. -/
theorem runSpeeds_unlocked_noop
    (cfg : AutoLockConfig) (l : List ℚ)
    (hcfg : cfg.unlock_below ≤ cfg.lock_above)
    (hb : ∀ v ∈ l, v < cfg.unlock_below) :
    runSpeeds cfg
        { enabled := true, locked_state := some LockState.unlocked,
          pending_lock := false, any_door_open := false } l =
      ({ enabled := true, locked_state := some LockState.unlocked,
         pending_lock := false, any_door_open := false }, []) := by
  induction l with
  | nil => rfl
  | cons v rest ih =>
    have hv := hb v (List.mem_cons_self v rest)
    have hnl : ¬ (cfg.lock_above < v) := fun hlt =>
      absurd (lt_of_lt_of_le hv hcfg) (not_lt_of_gt hlt)
    have hstep : _on_speed_changed cfg
        { enabled := true, locked_state := some LockState.unlocked,
          pending_lock := false, any_door_open := false } (some v) =
        ({ enabled := true, locked_state := some LockState.unlocked,
           pending_lock := false, any_door_open := false }, []) := by
      simp [_on_speed_changed, hnl, hv]
    have ihr := ih (fun u hu => hb u (List.mem_cons_of_mem v hu))
    simp only [runSpeeds, List.map_cons, alRun, alStep, hstep] at *
    simp [ihr]

/-- C6: starting from the fresh enabled state with all doors closed, any
non-empty run of samples above the lock threshold publishes exactly one
Lock command (payload command `"lock"`), and a subsequent non-empty run
of samples below the unlock threshold publishes exactly one Unlock
command (payload command `"unlock"`). -/
theorem autolock_lock_unlock_exactly_once
    (cfg : AutoLockConfig) (l1 l2 : List ℚ)
    (hcfg : cfg.unlock_below ≤ cfg.lock_above)
    (h1 : l1 ≠ []) (ha : ∀ v ∈ l1, cfg.lock_above < v)
    (h2 : l2 ≠ []) (hb : ∀ v ∈ l2, v < cfg.unlock_below) :
    runSpeeds cfg (initAutoLock true) l1 =
      ({ enabled := true, locked_state := some LockState.locked,
         pending_lock := false, any_door_open := false }, [lockEvent]) ∧
    runSpeeds cfg
        { enabled := true, locked_state := some LockState.locked,
          pending_lock := false, any_door_open := false } l2 =
      ({ enabled := true, locked_state := some LockState.unlocked,
         pending_lock := false, any_door_open := false }, [unlockEvent]) := by
  constructor
  · cases l1 with
    | nil => exact absurd rfl h1
    | cons v rest =>
      have hv := ha v (List.mem_cons_self v rest)
      have hstep : _on_speed_changed cfg (initAutoLock true) (some v) =
          ({ enabled := true, locked_state := some LockState.locked,
             pending_lock := false, any_door_open := false }, [lockEvent]) := by
        simp [_on_speed_changed, initAutoLock, hv]
      have hrest := runSpeeds_locked_noop cfg rest
        (fun u hu => ha u (List.mem_cons_of_mem v hu))
      simp only [runSpeeds, List.map_cons, alRun, alStep, hstep] at *
      simp [hrest]
  · cases l2 with
    | nil => exact absurd rfl h2
    | cons v rest =>
      have hv := hb v (List.mem_cons_self v rest)
      have hnl : ¬ (cfg.lock_above < v) := fun hlt =>
        absurd (lt_of_lt_of_le hv hcfg) (not_lt_of_gt hlt)
      have hstep : _on_speed_changed cfg
          { enabled := true, locked_state := some LockState.locked,
            pending_lock := false, any_door_open := false } (some v) =
          ({ enabled := true, locked_state := some LockState.unlocked,
             pending_lock := false, any_door_open := false }, [unlockEvent]) := by
        simp [_on_speed_changed, hnl, hv]
      have hrest := runSpeeds_unlocked_noop cfg rest hcfg
        (fun u hu => hb u (List.mem_cons_of_mem v hu))
      simp only [runSpeeds, List.map_cons, alRun, alStep, hstep] at *
      simp [hrest]

/-- Witness for `autolock_lock_unlock_exactly_once`: the spec scenario —
speeds 6, 8, 10, 9.5 with default thresholds 5/3 publish exactly one
Lock, then speeds 2.5, 1, 0, 2.9 publish exactly one Unlock. -/
theorem autolock_lock_unlock_exactly_once_witness :
    defaultAutoLockConfig.unlock_below ≤ defaultAutoLockConfig.lock_above ∧
    ([(6 : ℚ), 8, 10, 19/2] ≠ []) ∧ ([(5/2 : ℚ), 1, 0, 29/10] ≠ []) ∧
    runSpeeds defaultAutoLockConfig (initAutoLock true) [6, 8, 10, 19/2] =
      ({ enabled := true, locked_state := some LockState.locked,
         pending_lock := false, any_door_open := false }, [lockEvent]) ∧
    runSpeeds defaultAutoLockConfig
        { enabled := true, locked_state := some LockState.locked,
          pending_lock := false, any_door_open := false } [5/2, 1, 0, 29/10] =
      ({ enabled := true, locked_state := some LockState.unlocked,
         pending_lock := false, any_door_open := false }, [unlockEvent]) := by
  have h := autolock_lock_unlock_exactly_once defaultAutoLockConfig
    [6, 8, 10, 19/2] [5/2, 1, 0, 29/10]
    (by norm_num [defaultAutoLockConfig]) (by simp)
    (by intro v hv; fin_cases hv <;> norm_num [defaultAutoLockConfig])
    (by simp)
    (by intro v hv; fin_cases hv <;> norm_num [defaultAutoLockConfig])
  exact ⟨by norm_num [defaultAutoLockConfig], by simp, by simp, h.1, h.2⟩

/-- C3 counterexample: a malformed (unparseable) door payload is not
dropped — delivered to the front-left handler on a state with both
front doors open and the door alert active, it mutates the door map
(coercing the door to closed) and publishes a door alert payload. -/
theorem safety_malformed_payload_not_dropped_cex :
    (_on_door_front_left jsonBoolLit stBothFrontOpen "not-a-bool").state.doors_open ≠
      stBothFrontOpen.doors_open ∧
    (_on_door_front_left jsonBoolLit stBothFrontOpen "not-a-bool").events =
      [SafetyEvent.door true 100 true ["frontRight"] 5 "active"] := by
  decide

/-- Helper: the evaluation core never changes the door map. -/
theorem evalCore_doors_open (s : SafetyAppState) (q : ℚ) :
    (evalCore s q).1.doors_open = s.doors_open := rfl

/-- Helper: a door-map input handler always records the parsed payload
value under its key, whatever the evaluation afterwards does. -/
theorem onBoolInput_door_map (jb : String → Option Bool) (key : String)
    (st : SafetyAppState) (payload : String) :
    (onBoolInput jb true key st payload).state.doors_open =
      setKey st.doors_open key (_parse_bool jb payload) := by
  rcases h : st.speed_kph with _ | q <;>
    simp [onBoolInput, _evaluate_and_publish, evalCore, h]

/-- C3 (amended): malformed door/seatbelt payloads are not dropped —
`_parse_bool` coerces every unparseable string to `False`, and the
handler records that value in its map entry and runs the evaluation,
which may mutate the gates and publish alert events (see the
counterexample); a speed sample with a missing/null value is likewise
not dropped — `speed_kph` is set to the null value and the speed echo
(0.0) is still published before the evaluation fails. -/
theorem safety_malformed_payload_coerced
    (jsonBool : String → Option Bool) (st : SafetyAppState) (payload : String)
    (hkw1 : ¬ (pyLower (pyStrip payload) = "true" ∨ pyLower (pyStrip payload) = "1" ∨
      pyLower (pyStrip payload) = "on" ∨ pyLower (pyStrip payload) = "yes"))
    (hkw2 : ¬ (pyLower (pyStrip payload) = "false" ∨ pyLower (pyStrip payload) = "0" ∨
      pyLower (pyStrip payload) = "off" ∨ pyLower (pyStrip payload) = "no"))
    (hjson : jsonBool (pyLower (pyStrip payload)) = none) :
    _parse_bool jsonBool payload = false ∧
    (_on_door_front_left jsonBool st payload).state.doors_open =
      setKey st.doors_open "frontLeft" false ∧
    on_speed_changed st none =
      { state := { st with speed_kph := none },
        events := [SafetyEvent.speed 0], raised := true } := by
  have hpb : _parse_bool jsonBool payload = false := by
    simp [_parse_bool, hkw1, hkw2, hjson]
  refine ⟨hpb, ?_, ?_⟩
  · rw [show (_on_door_front_left jsonBool st payload) =
        onBoolInput jsonBool true "frontLeft" st payload from rfl,
      onBoolInput_door_map, hpb]
  · simp [on_speed_changed, _evaluate_and_publish, roundTenths]

/-- Witness for `safety_malformed_payload_coerced` at the unparseable
payload `"not-a-bool"` on the active-alert state. -/
theorem safety_malformed_payload_coerced_witness :
    _parse_bool jsonBoolLit "not-a-bool" = false ∧
    (_on_door_front_left jsonBoolLit stBothFrontOpen "not-a-bool").state.doors_open =
      setKey stBothFrontOpen.doors_open "frontLeft" false := by
  have h := safety_malformed_payload_coerced jsonBoolLit stBothFrontOpen "not-a-bool"
    (by decide) (by decide) (by decide)
  exact ⟨h.1, h.2.1⟩

/-- C4: in `SafetyApp`'s evaluation step, a door (resp. seatbelt) alert
payload is published exactly when the corresponding gate tick returned a
transition, or the gate is active and the open-door (resp. unfastened)
set or the moving flag differs from the last published values; in the
concrete scenario (threshold 5 km/h, debounce 1, speed 10 km/h, door
alert active on frontLeft), opening frontRight publishes a new payload
with state `"active"` and the enlarged set while the gate tick fires no
transition, and the identical re-delivery publishes nothing. -/
theorem safety_publish_iff_transition_or_content_change :
    (∀ (st : SafetyAppState) (q : ℚ),
      (evalCore st q).2.any SafetyEvent.isDoor =
        ((_tick st.door_state
            (decide (st.threshold_kph < q) &&
              !((st.doors_open.filter (fun p => p.2)).map Prod.fst).isEmpty)
            st.debounce_count).2.isSome ||
          ((_tick st.door_state
              (decide (st.threshold_kph < q) &&
                !((st.doors_open.filter (fun p => p.2)).map Prod.fst).isEmpty)
              st.debounce_count).1.active &&
            (!sameSet ((st.doors_open.filter (fun p => p.2)).map Prod.fst)
                st.last_open_doors ||
              decide (st.threshold_kph < q) != st.last_moving))) ∧
      (evalCore st q).2.any SafetyEvent.isSeatbelt =
        ((_tick st.sb_state
            (decide (st.threshold_kph < q) &&
              !((st.belts_fastened.filter (fun p => !p.2)).map Prod.fst).isEmpty)
            st.debounce_count).2.isSome ||
          ((_tick st.sb_state
              (decide (st.threshold_kph < q) &&
                !((st.belts_fastened.filter (fun p => !p.2)).map Prod.fst).isEmpty)
              st.debounce_count).1.active &&
            (!sameSet ((st.belts_fastened.filter (fun p => !p.2)).map Prod.fst)
                st.last_unfastened ||
              decide (st.threshold_kph < q) != st.last_moving)))) ∧
    c4AfterFL.events = [SafetyEvent.door true 100 true ["frontLeft"] 5 "active"] ∧
    c4AfterFR.events =
      [SafetyEvent.door true 100 true ["frontLeft", "frontRight"] 5 "active"] ∧
    (_tick c4AfterFL.state.door_state true 1).2 = none ∧
    c4Repeat.events = [] := by
  refine ⟨?_, by decide, by decide, by decide, by decide⟩
  intro st q
  constructor <;>
  · simp only [evalCore, List.any_append]
    split_ifs with h1 h2 <;>
      simp_all [SafetyEvent.isDoor, SafetyEvent.isSeatbelt] <;> tauto
